import Mathlib

/-!
# Verification of the fastapi-bootcamp observer store and astroplan layer

A shallow embedding of the `fastapibootcamp` Python package, faithful to
the source:

* `dependencies/pagination.py` — `SortOrder`, `Pagination`,
  `pagination_dependency`;
* `domain/models.py` — `Observer`, `ObserversPage`, `TargetObservability`;
* `storage/observerstore.py` — `ObserverStore` (an in-memory mapping from
  slugified site keys to site records) and its operations;
* `services/observerservice.py` — `ObserverService`;
* `handlers/astroplan/models.py` — the response-model mapping, including
  `ObserverCollectionResponseModel.from_domain`;
* `exceptions.py` — `ObserverNotFoundError`.

External libraries (astropy, astroplan, FastAPI request URL building) are
abstracted as type parameters and oracle functions: the embedding never
invents their behaviour, it only records how the repository composes them.
Python `int` is embedded as `Int` (unbounded), Python strings as `String`,
Python list slicing as `pySlice` below, and Python's stable `list.sort`
with a key and a `reverse` flag as `List.mergeSort` with the corresponding
boolean comparison.
-/

namespace FastapiBootcamp

/-- `SortOrder` from `dependencies/pagination.py`: the two sort orders. -/
inductive SortOrder where
  | asc
  | desc
deriving DecidableEq, Repr

/-- `Pagination` from `dependencies/pagination.py`: the requested page
number, page size limit and sort order. Python ints are unbounded, so the
fields are `Int`. -/
structure Pagination where
  page : Int
  limit : Int
  order : SortOrder
deriving DecidableEq, Repr

/-- `pagination_dependency` from `dependencies/pagination.py`. The `page`
query parameter is declared `Query(ge=1)`, so FastAPI rejects requests
with `page < 1` (modelled by `none`); `limit` and `order` carry no
constraint and are passed through unchanged into the `Pagination`. -/
def pagination_dependency (page : Int) (limit : Int) (order : SortOrder) :
    Option Pagination :=
  if 1 ≤ page then some { page := page, limit := limit, order := order }
  else none

/-- Python string comparison `a < b` on the underlying code-point
sequences: lexicographic, strict, shorter-is-smaller on proper prefixes.
A Python `str` is a sequence of code points, embedded as `List Char`. -/
def pyCharListLt : List Char → List Char → Bool
  | [], [] => false
  | [], _ :: _ => true
  | _ :: _, [] => false
  | a :: as, b :: bs =>
      if a < b then true else if b < a then false else pyCharListLt as bs

/-- The non-strict key comparison under which CPython's stable sort
arranges its output: `a` may precede `b` exactly when `b < a` fails. -/
def pyStrLe (a b : String) : Bool := !pyCharListLt b.data a.data

/-- Python `str.lower()`, code point by code point (the repository's
site names and patterns are ASCII, where this is exact). -/
def pyLower (s : String) : String := String.mk (s.data.map Char.toLower)

/-- Python dict lookup `d.get(k)` on an association list with unique
keys: the first matching key's value. -/
def dictGet {β : Type} (d : List (String × β)) (k : String) : Option β :=
  match d with
  | [] => none
  | kv :: rest => if kv.1 = k then some kv.2 else dictGet rest k

/-- `Observer` from `domain/models.py`: the astroplan observer subclass
with the extra `observer_id`, `aliases` and `local_timezone` attributes.
The astropy `EarthLocation` is abstracted as the type parameter `E`. -/
structure Observer (E : Type) where
  observer_id : String
  location : E
  name : String
  aliases : List String
  local_timezone : String
deriving DecidableEq

/-- One value of the `sites.json` mapping read by `ObserverStore.__init__`:
a site name, aliases, timezone, and the raw geodetic data (longitude,
latitude, elevation with their units), the latter abstracted as the type
parameter `L` because it is consumed only by astropy's
`EarthLocation.from_geodetic`. -/
structure SiteInfo (L : Type) where
  name : String
  aliases : List String
  timezone : String
  locationData : L
deriving DecidableEq

/-- The in-memory `_sites` mapping of `ObserverStore`: a Python dict from
slugified site keys to site records, embedded as an association list in
insertion order; lookup takes the first matching key, as dict keys are
unique. -/
abbrev Store (L : Type) : Type := List (String × SiteInfo L)

/-- Python dict item assignment `d[k] = v`: overwrite in place when the
key is present, append otherwise. -/
def dictInsert {β : Type} (d : List (String × β)) (k : String) (v : β) :
    List (String × β) :=
  if d.any (fun kv => kv.1 = k) then
    d.map (fun kv => if kv.1 = k then (k, v) else kv)
  else d ++ [(k, v)]

/-- A Python dict comprehension over a list of key-value pairs. -/
def dictOfPairs {β : Type} (l : List (String × β)) : List (String × β) :=
  l.foldl (fun d kv => dictInsert d kv.1 kv.2) []

/-- `ObserverStore.__init__` (storage/observerstore.py lines 38-50): load
the site data and build `_sites = dict of (slugify key, value)`. The
`slugify` function is external and abstracted as a parameter. -/
def ObserverStore.init {L : Type} (slugify : String → String)
    (site_data : List (String × SiteInfo L)) : Store L :=
  dictOfPairs (site_data.map (fun kv => (slugify kv.1, kv.2)))

/-- `ObserverStore.total_count` (storage/observerstore.py lines 52-55):
`len(self._sites)`. -/
def ObserverStore.total_count {L : Type} (sites : Store L) : Nat :=
  sites.length

/-- `ObserverStore.get_observer_by_id` (storage/observerstore.py lines
57-86): dict lookup by slug; on a hit, build the `Observer` domain object
from the site record, delegating the geodetic conversion to astropy
(abstracted as `fromGeodetic`). -/
def ObserverStore.get_observer_by_id {L E : Type} (fromGeodetic : L → E)
    (sites : Store L) (observer_id : String) : Option (Observer E) :=
  match dictGet sites observer_id with
  | none => none
  | some site_info =>
      some { observer_id := observer_id
             location := fromGeodetic site_info.locationData
             name := site_info.name
             aliases := site_info.aliases
             local_timezone := site_info.timezone }

/-- `ObserverStore._get_observer_ids` (storage/observerstore.py lines
150-154): `sorted(self._sites.keys())`, Python's stable sort under the
code-point string order. -/
def ObserverStore.observer_ids {L : Type} (sites : Store L) : List String :=
  (sites.map Prod.fst).mergeSort pyStrLe

/-- The first stage of `ObserverStore.get_observers` (lines 102-111):
fetch every id's observer and drop the `None` entries
(`[o for o in all_observers if o is not None]`). -/
def ObserverStore.allObservers {L E : Type} (fromGeodetic : L → E)
    (sites : Store L) : List (Observer E) :=
  ((ObserverStore.observer_ids sites).map
    (ObserverStore.get_observer_by_id fromGeodetic sites)).reduceOption

/-- `ObserverStore._has_name_pattern` (storage/observerstore.py lines
142-148): case-insensitive substring match of the pattern against the
observer's name or any of its aliases. Python's `pattern in s` is the
contiguous-substring test, embedded as `List.IsInfix` on the lowercased
character lists. -/
def ObserverStore.has_name_pattern {E : Type} (observer : Observer E)
    (name_pattern : String) : Bool :=
  let pattern := pyLower name_pattern
  decide (pattern.data <:+: (pyLower observer.name).data) ||
    observer.aliases.any
      (fun al => decide (pattern.data <:+: (pyLower al).data))

/-- The filtering stage of `ObserverStore.get_observers` (lines 113-119):
`if name_pattern:` — the filter runs only when `name_pattern` is truthy,
i.e. not `None` and not the empty string. -/
def ObserverStore.filterByName {E : Type} (observers : List (Observer E))
    (name_pattern : Option String) : List (Observer E) :=
  match name_pattern with
  | none => observers
  | some p =>
      if p = "" then observers
      else observers.filter (fun o => ObserverStore.has_name_pattern o p)

/-- The comparison used by the sorting stage of
`ObserverStore.get_observers` (lines 123-127):
`observers.sort(key=lambda o: o.name.lower(), reverse=(order == desc))`.
CPython's sort is stable, and `reverse=True` flips the comparisons while
keeping equal-key elements in their original order, which is exactly a
stable merge sort under the flipped non-strict comparison. -/
def ObserverStore.sortLe {E : Type} (order : SortOrder) :
    Observer E → Observer E → Bool :=
  match order with
  | .asc => fun a b => pyStrLe (pyLower a.name) (pyLower b.name)
  | .desc => fun a b => pyStrLe (pyLower b.name) (pyLower a.name)

/-- Normalisation of one Python slice bound for a list of length `len`:
negative indices count from the end and clip at 0; nonnegative indices
clip at `len`. -/
def pyBound (len : Nat) (i : Int) : Nat :=
  if i < 0 then (i + len).toNat else min i.toNat len

/-- Python list slicing `l[start:stop]` with the default step. -/
def pySlice {α : Type} (l : List α) (start stop : Int) : List α :=
  (l.drop (pyBound l.length start)).take
    (pyBound l.length stop - pyBound l.length start)

/-- `ObserversPage` from `domain/models.py` lines 47-68: a dataclass whose
fields are exactly `observers`, `total` and `pagination`. -/
structure ObserversPage (E : Type) where
  observers : List (Observer E)
  total : Nat
  pagination : Pagination

/-- The filtered-and-sorted observer list that
`ObserverStore.get_observers` paginates: all observers, filtered by the
name pattern, sorted by lowercased name in the requested order. -/
def ObserverStore.filteredSorted {L E : Type} (fromGeodetic : L → E)
    (sites : Store L) (name_pattern : Option String) (order : SortOrder) :
    List (Observer E) :=
  (ObserverStore.filterByName
      (ObserverStore.allObservers fromGeodetic sites) name_pattern).mergeSort
    (ObserverStore.sortLe order)

/-- `ObserverStore.get_observers` (storage/observerstore.py lines 88-140):
collect all observers, filter by the name pattern, record the filtered
count, sort by lowercased name, then slice out the requested page with
`start = (page - 1) * limit`, `end = start + limit` clipped to the list
length, returning `observers[start:end] if start < len(observers) else
[]`. -/
def ObserverStore.get_observers {L E : Type} (fromGeodetic : L → E)
    (sites : Store L) (name_pattern : Option String)
    (pagination : Pagination) : ObserversPage E :=
  let observers := ObserverStore.allObservers fromGeodetic sites
  let observers := ObserverStore.filterByName observers name_pattern
  let total_filtered_observers := observers.length
  let observers := observers.mergeSort (ObserverStore.sortLe pagination.order)
  let start : Int := (pagination.page - 1) * pagination.limit
  let stop : Int := start + pagination.limit
  let stop : Int :=
    if stop > (observers.length : Int) then (observers.length : Int) else stop
  let observers :=
    if start < (observers.length : Int) then pySlice observers start stop
    else []
  { observers := observers
    total := total_filtered_observers
    pagination := pagination }

/-- `ObserverNotFoundError` from `exceptions.py` lines 45-50: a
`ClientRequestError` subclass raised with the missing observer id as its
message. -/
structure ObserverNotFoundError where
  message : String
deriving DecidableEq, Repr

/-- The `status_code` class attribute of `ObserverNotFoundError`. -/
def ObserverNotFoundError.status_code : Nat := 404

/-- The `error` class attribute of `ObserverNotFoundError`. -/
def ObserverNotFoundError.error : String := "unknown_observer"

/-- `ObserverService.get_observer_by_id` (services/observerservice.py
lines 36-41): delegate to the store and raise `ObserverNotFoundError`
when the store returns `None`. -/
def ObserverService.get_observer_by_id {L E : Type} (fromGeodetic : L → E)
    (sites : Store L) (observer_id : String) :
    Except ObserverNotFoundError (Observer E) :=
  match ObserverStore.get_observer_by_id fromGeodetic sites observer_id with
  | none => Except.error { message := observer_id }
  | some observer => Except.ok observer

/-- `ObserverService.get_observers` (services/observerservice.py lines
43-67): a direct delegation to the store. -/
def ObserverService.get_observers {L E : Type} (fromGeodetic : L → E)
    (sites : Store L) (name_pattern : Option String)
    (pagination : Pagination) : ObserversPage E :=
  ObserverStore.get_observers fromGeodetic sites name_pattern pagination

/-- One call against the `ObserverStore` public interface, for stating
that no sequence of store operations changes the store state. -/
inductive StoreOp where
  | getObserverById (observer_id : String)
  | getObservers (name_pattern : Option String) (pagination : Pagination)
  | totalCount
deriving DecidableEq

/-- The result of one `ObserverStore` operation. -/
inductive StoreResult (E : Type) where
  | observer (o : Option (Observer E))
  | page (p : ObserversPage E)
  | count (n : Nat)

/-- Run one store operation: compute its result and return the store
state it leaves behind. None of `get_observer_by_id`, `get_observers` or
`total_count` (storage/observerstore.py lines 52-154) contains an
assignment to `self._sites`; each method only reads the mapping, so the
post-state is the mapping the method started from. -/
def ObserverStore.run {L E : Type} (fromGeodetic : L → E) (sites : Store L)
    (op : StoreOp) : StoreResult E × Store L :=
  match op with
  | .getObserverById observer_id =>
      (StoreResult.observer
        (ObserverStore.get_observer_by_id fromGeodetic sites observer_id),
       sites)
  | .getObservers name_pattern pagination =>
      (StoreResult.page
        (ObserverStore.get_observers fromGeodetic sites name_pattern
          pagination),
       sites)
  | .totalCount => (StoreResult.count (ObserverStore.total_count sites), sites)

/-- Run a sequence of store operations, threading the store state. -/
def ObserverStore.runSeq {L E : Type} (fromGeodetic : L → E)
    (sites : Store L) (ops : List StoreOp) : Store L :=
  ops.foldl (fun s op => (ObserverStore.run fromGeodetic s op).2) sites

/-- The external astronomy functionality (astropy + astroplan) that
`TargetObservability.compute` delegates to, abstracted as oracles over
abstract types: `E` earth locations, `Coord` sky coordinates, `Time`
datetimes, `ATime` astropy times, `AltAzT` altitude-azimuth frames,
`Ang` angles, `Fl` dimensionless floats. -/
structure AstroLib (E Coord Time ATime AltAzT Ang Fl : Type) where
  astropyTime : Time → ATime
  targetIsUp : Observer E → ATime → Coord → Bool
  transformToAltAz : Coord → ATime → E → AltAzT
  secz : AltAzT → Fl
  isNight : Observer E → ATime → Bool
  moonAltAz : Observer E → ATime → AltAzT
  altAbove0 : AltAzT → Bool
  separation : AltAzT → AltAzT → Ang
  moonIllumination : Observer E → ATime → Fl

/-- `TargetObservability` from `domain/models.py` lines 71-85. -/
structure TargetObservability (E Coord Time AltAzT Ang Fl : Type) where
  observer : Observer E
  target : Coord
  time : Time
  airmass : Option Fl
  altaz : AltAzT
  is_above_horizon : Bool
  is_night : Bool
  moon_up : Bool
  moon_separation : Ang
  moon_altaz : AltAzT
  moon_illumination : Fl

/-- `TargetObservability.compute` (domain/models.py lines 87-122):
convert the time, ask astroplan whether the target is up, transform the
target into the observer's altitude-azimuth frame, set
`airmass = altaz.secz if is_up else None`, and fill in the night/moon
fields from the corresponding astroplan calls. -/
def TargetObservability.compute {E Coord Time ATime AltAzT Ang Fl : Type}
    (lib : AstroLib E Coord Time ATime AltAzT Ang Fl) (observer : Observer E)
    (target : Coord) (time : Time) :
    TargetObservability E Coord Time AltAzT Ang Fl :=
  let astropy_time := lib.astropyTime time
  let is_up := lib.targetIsUp observer astropy_time target
  let altaz := lib.transformToAltAz target astropy_time observer.location
  let airmass := if is_up then some (lib.secz altaz) else none
  let is_night := lib.isNight observer astropy_time
  let moon_altaz := lib.moonAltAz observer astropy_time
  let moon_up := lib.altAbove0 moon_altaz
  let moon_separation := lib.separation altaz moon_altaz
  let moon_illumination := lib.moonIllumination observer astropy_time
  { observer := observer
    target := target
    time := time
    is_above_horizon := is_up
    airmass := airmass
    altaz := altaz
    is_night := is_night
    moon_up := moon_up
    moon_separation := moon_separation
    moon_altaz := moon_altaz
    moon_illumination := moon_illumination }

/-- `ObserverService.get_target_observability`
(services/observerservice.py lines 69-91): look the observer up through
the service (raising `ObserverNotFoundError` on a miss) and delegate to
`TargetObservability.compute`. -/
def ObserverService.get_target_observability
    {L E Coord Time ATime AltAzT Ang Fl : Type}
    (lib : AstroLib E Coord Time ATime AltAzT Ang Fl) (fromGeodetic : L → E)
    (sites : Store L) (observer_id : String) (sky_coord : Coord)
    (time : Time) :
    Except ObserverNotFoundError
      (TargetObservability E Coord Time AltAzT Ang Fl) := do
  let observer ← ObserverService.get_observer_by_id fromGeodetic sites
    observer_id
  pure (TargetObservability.compute lib observer sky_coord time)

/-- A Python runtime error surfaced by the embedding. `attributeError t a`
models `AttributeError: 't' object has no attribute 'a'`. -/
inductive PyError where
  | attributeError (typeName : String) (attrName : String)
deriving DecidableEq, Repr

/-- The pieces of the FastAPI `Request` the astroplan response models use:
`request.url_for("get_observer", observer_id=...)` and
`request.url_for("get_observers")`, abstracted as oracles. -/
structure Request where
  urlForObserver : String → String
  urlForObservers : String

/-- Python evaluation of `observers_page.page`. The `ObserversPage`
dataclass (domain/models.py lines 47-68) declares exactly the fields
`observers`, `total` and `pagination` and no property named `page`, so
this attribute lookup raises `AttributeError`. -/
def ObserversPage.pageAttr {E : Type} (_ : ObserversPage E) :
    Except PyError Int :=
  Except.error (PyError.attributeError "ObserversPage" "page")

/-- Python evaluation of `observers_page.limit`: `ObserversPage` has no
field or property named `limit`, so the lookup raises `AttributeError`. -/
def ObserversPage.limitAttr {E : Type} (_ : ObserversPage E) :
    Except PyError Int :=
  Except.error (PyError.attributeError "ObserversPage" "limit")

/-- Python evaluation of `observers_page.sort_ascending`: `ObserversPage`
has no field or property of that name, so the lookup raises
`AttributeError`. -/
def ObserversPage.sortAscendingAttr {E : Type} (_ : ObserversPage E) :
    Except PyError Bool :=
  Except.error (PyError.attributeError "ObserversPage" "sort_ascending")

/-- `ObserverModel` from `handlers/astroplan/models.py` lines 38-80, with
the three float fields abstracted over the type parameter `Deg` because
their values come from astropy unit conversions. -/
structure ObserverModel (Deg : Type) where
  id : String
  name : String
  aliases : List String
  local_timezone : String
  longitude : Deg
  latitude : Deg
  elevation : Deg
  self_url : String

/-- `ObserverModel.from_domain` (handlers/astroplan/models.py lines
86-105): copy the observer attributes, convert the location through the
astropy accessors `longitude.deg`, `latitude.deg`, `elevation.to_value`
(abstracted as `lonDeg`, `latDeg`, `elevM`), and build the self URL from
the request. -/
def ObserverModel.from_domain {E Deg : Type} (lonDeg latDeg elevM : E → Deg)
    (observer : Observer E) (request : Request) : ObserverModel Deg :=
  { id := observer.observer_id
    name := observer.name
    aliases := observer.aliases
    local_timezone := observer.local_timezone
    longitude := lonDeg observer.location
    latitude := latDeg observer.location
    elevation := elevM observer.location
    self_url := request.urlForObserver observer.observer_id }

/-- `PaginationModel` from `handlers/astroplan/models.py` lines 108-125. -/
structure PaginationModel where
  total : Nat
  page : Int
  limit : Int
  next_url : Option String
  prev_url : Option String
deriving DecidableEq, Repr

/-- `ObserverCollectionResponseModel` from `handlers/astroplan/models.py`
lines 128-137. -/
structure ObserverCollectionResponseModel (Deg : Type) where
  data : List (ObserverModel Deg)
  pagination : PaginationModel

/-- `urllib.parse.urlencode` restricted to the query parameters this
application builds (none of which need percent escaping except possibly
the name pattern, whose escaping is irrelevant to the claims): joins
`key=value` pairs with `&`. -/
def urlencode (params : List (String × String)) : String :=
  String.intercalate "&" (params.map (fun kv => kv.1 ++ "=" ++ kv.2))

/-- `ObserverCollectionResponseModel._url_for_page`
(handlers/astroplan/models.py lines 208-232): `None` when `page` is
`None`, otherwise the observers collection URL with `limit`, `page` and
`order` query parameters, plus `name` when the pattern is truthy. -/
def ObserverCollectionResponseModel.url_for_page (limit : Int)
    (request : Request) (page : Option Int) (sort_ascending : Bool)
    (name_pattern : Option String) : Option String :=
  match page with
  | none => none
  | some p =>
      let base_url := request.urlForObservers
      let query_params : List (String × String) :=
        [("limit", toString limit), ("page", toString p),
         ("order", if sort_ascending then "asc" else "desc")]
      let query_params :=
        match name_pattern with
        | some np => if np = "" then query_params
            else query_params ++ [("name", np)]
        | none => query_params
      some (base_url ++ "?" ++ urlencode query_params)

/-- `ObserverCollectionResponseModel._next_url`
(handlers/astroplan/models.py lines 167-187): the next page number is
`page + 1` when `page * limit < total`, else `None`; the `page`, `limit`
and `sort_ascending` attribute reads on the `ObserversPage` propagate as
Python exceptions. -/
def ObserverCollectionResponseModel.next_url {E : Type}
    (observers_page : ObserversPage E) (request : Request)
    (name_pattern : Option String) : Except PyError (Option String) := do
  let page ← observers_page.pageAttr
  let limit ← observers_page.limitAttr
  let next_page : Option Int :=
    if page * limit < (observers_page.total : Int) then some (page + 1)
    else none
  let sort_ascending ← observers_page.sortAscendingAttr
  pure (ObserverCollectionResponseModel.url_for_page limit request next_page
    sort_ascending name_pattern)

/-- `ObserverCollectionResponseModel._prev_url`
(handlers/astroplan/models.py lines 189-206): the previous page number is
`page - 1` when `page > 1`, else `None`; the attribute reads propagate as
Python exceptions. -/
def ObserverCollectionResponseModel.prev_url {E : Type}
    (observers_page : ObserversPage E) (request : Request)
    (name_pattern : Option String) : Except PyError (Option String) := do
  let page ← observers_page.pageAttr
  let prev_page : Option Int := if page > 1 then some (page - 1) else none
  let limit ← observers_page.limitAttr
  let sort_ascending ← observers_page.sortAscendingAttr
  pure (ObserverCollectionResponseModel.url_for_page limit request prev_page
    sort_ascending name_pattern)

/-- `ObserverCollectionResponseModel.from_domain`
(handlers/astroplan/models.py lines 144-165): build the data list from
the page's observers, then the `PaginationModel` from `total` and the
`page`/`limit` attribute reads and the next/previous URLs; any
`AttributeError` raised while evaluating the constructor arguments
propagates out of `from_domain`. -/
def ObserverCollectionResponseModel.from_domain {E Deg : Type}
    (lonDeg latDeg elevM : E → Deg) (observers_page : ObserversPage E)
    (request : Request) (name_pattern : Option String) :
    Except PyError (ObserverCollectionResponseModel Deg) := do
  let data := observers_page.observers.map
    (fun observer => ObserverModel.from_domain lonDeg latDeg elevM observer
      request)
  let total := observers_page.total
  let page ← observers_page.pageAttr
  let limit ← observers_page.limitAttr
  let next_url ← ObserverCollectionResponseModel.next_url observers_page
    request name_pattern
  let prev_url ← ObserverCollectionResponseModel.prev_url observers_page
    request name_pattern
  pure { data := data
         pagination :=
          { total := total
            page := page
            limit := limit
            next_url := next_url
            prev_url := prev_url } }

/-! ### Concrete fixtures

A small concrete instantiation (locations collapsed to `Unit`), mirroring
two entries of `storage/sites.json`, used to evaluate the theorems on
closed inputs. -/

/-- A trivial geodetic conversion for the `Unit` location fixture. -/
def uGeo : Unit → Unit := fun _ => ()

/-- The Rubin Observatory entry of `sites.json`, location data elided. -/
def rubinSite : SiteInfo Unit :=
  { name := "Rubin Observatory"
    aliases := ["LSST"]
    timezone := "Chile/Continental"
    locationData := () }

/-- The Rubin AuxTel entry of `sites.json`, location data elided. -/
def auxtelSite : SiteInfo Unit :=
  { name := "Rubin AuxTel"
    aliases := ["LSST AuxTel"]
    timezone := "Chile/Continental"
    locationData := () }

/-- A two-site store fixture with slugified keys. -/
def demoStore : Store Unit := [("rubin", rubinSite), ("rubin-auxtel", auxtelSite)]

/-- The observer the store builds for the `rubin` slug. -/
def rubinObserver : Observer Unit :=
  { observer_id := "rubin"
    location := ()
    name := "Rubin Observatory"
    aliases := ["LSST"]
    local_timezone := "Chile/Continental" }

/-- The observer the store builds for the `rubin-auxtel` slug. -/
def auxtelObserver : Observer Unit :=
  { observer_id := "rubin-auxtel"
    location := ()
    name := "Rubin AuxTel"
    aliases := ["LSST AuxTel"]
    local_timezone := "Chile/Continental" }

/-- A degenerate astronomy oracle over `Unit` types whose target is
always up, for evaluating `TargetObservability.compute` on closed
inputs. -/
def unitAstroLib : AstroLib Unit Unit Unit Unit Unit Unit Unit :=
  { astropyTime := fun _ => ()
    targetIsUp := fun _ _ _ => true
    transformToAltAz := fun _ _ _ => ()
    secz := fun _ => ()
    isNight := fun _ _ => false
    moonAltAz := fun _ _ => ()
    altAbove0 := fun _ => false
    separation := fun _ _ => ()
    moonIllumination := fun _ _ => () }

/-! ### Properties of the Python string order -/

theorem pyCharListLt_iff_lex (a b : List Char) :
    pyCharListLt a b = true ↔ List.Lex (· < ·) a b := by
  induction a generalizing b with
  | nil =>
    cases b with
    | nil => simp [pyCharListLt]
    | cons c cs => simpa [pyCharListLt] using List.Lex.nil
  | cons x xs ih =>
    cases b with
    | nil => simp [pyCharListLt]
    | cons y ys =>
      unfold pyCharListLt
      by_cases h1 : x < y
      · simp only [if_pos h1, true_iff]
        exact List.Lex.rel h1
      · by_cases h2 : y < x
        · rw [if_neg h1, if_pos h2]
          simp only [Bool.false_eq_true, false_iff]
          intro hl
          cases hl with
          | rel h' => exact h1 h'
          | cons h' => exact lt_irrefl _ h2
        · have hxy : x = y := le_antisymm (not_lt.mp h2) (not_lt.mp h1)
          subst hxy
          rw [if_neg h1, if_neg h1, ih]
          constructor
          · exact fun h => List.Lex.cons h
          · intro h
            cases h with
            | rel h' => exact absurd h' h1
            | cons h' => exact h'

theorem pyCharListLt_asymm : ∀ a b : List Char,
    pyCharListLt a b = true → pyCharListLt b a = false := by
  intro a
  induction a with
  | nil =>
    intro b h
    cases b with
    | nil => simp [pyCharListLt] at h
    | cons y ys => simp [pyCharListLt]
  | cons x xs ih =>
    intro b h
    cases b with
    | nil => simp [pyCharListLt] at h
    | cons y ys =>
      unfold pyCharListLt at h ⊢
      by_cases hxy : x < y
      · rw [if_neg (lt_asymm hxy), if_pos hxy]
      · by_cases hyx : y < x
        · rw [if_neg hxy, if_pos hyx] at h
          simp at h
        · rw [if_neg hxy, if_neg hyx] at h
          rw [if_neg hyx, if_neg hxy]
          exact ih ys h

theorem pyCharListLt_trans : ∀ a b c : List Char,
    pyCharListLt a b = true → pyCharListLt b c = true →
    pyCharListLt a c = true := by
  intro a
  induction a with
  | nil =>
    intro b c h1 h2
    cases c with
    | nil => cases b <;> simp [pyCharListLt] at h2
    | cons z zs => simp [pyCharListLt]
  | cons x xs ih =>
    intro b c h1 h2
    cases b with
    | nil => simp [pyCharListLt] at h1
    | cons y ys =>
      cases c with
      | nil => simp [pyCharListLt] at h2
      | cons z zs =>
        unfold pyCharListLt at h1 h2 ⊢
        by_cases hxy : x < y
        · by_cases hyz : y < z
          · rw [if_pos (lt_trans hxy hyz)]
          · by_cases hzy : z < y
            · rw [if_neg hyz, if_pos hzy] at h2
              simp at h2
            · have hyzeq : y = z := le_antisymm (not_lt.mp hzy) (not_lt.mp hyz)
              subst hyzeq
              rw [if_pos hxy]
        · by_cases hyx : y < x
          · rw [if_neg hxy, if_pos hyx] at h1
            simp at h1
          · have hxyeq : x = y := le_antisymm (not_lt.mp hyx) (not_lt.mp hxy)
            subst hxyeq
            rw [if_neg hxy, if_neg hxy] at h1
            by_cases hxz : x < z
            · rw [if_pos hxz]
            · by_cases hzx : z < x
              · rw [if_neg hxz, if_pos hzx] at h2
                simp at h2
              · have hxzeq : x = z :=
                  le_antisymm (not_lt.mp hzx) (not_lt.mp hxz)
                subst hxzeq
                rw [if_neg hxz, if_neg hxz] at h2 ⊢
                exact ih ys zs h1 h2

theorem pyCharListLt_eq_of_not : ∀ a b : List Char,
    pyCharListLt a b = false → pyCharListLt b a = false → a = b := by
  intro a
  induction a with
  | nil =>
    intro b h1 _
    cases b with
    | nil => rfl
    | cons y ys => simp [pyCharListLt] at h1
  | cons x xs ih =>
    intro b h1 h2
    cases b with
    | nil => simp [pyCharListLt] at h2
    | cons y ys =>
      unfold pyCharListLt at h1 h2
      by_cases hxy : x < y
      · rw [if_pos hxy] at h1
        simp at h1
      · by_cases hyx : y < x
        · rw [if_pos hyx] at h2
          simp at h2
        · have hxyeq : x = y := le_antisymm (not_lt.mp hyx) (not_lt.mp hxy)
          subst hxyeq
          rw [if_neg hxy, if_neg hxy] at h1 h2
          rw [ih ys h1 h2]

theorem pyStrLe_total (a b : String) : (pyStrLe a b || pyStrLe b a) = true := by
  cases h1 : pyCharListLt b.data a.data
  · simp [pyStrLe, h1]
  · simp [pyStrLe, h1, pyCharListLt_asymm _ _ h1]

theorem pyStrLe_trans (a b c : String) (h1 : pyStrLe a b = true)
    (h2 : pyStrLe b c = true) : pyStrLe a c = true := by
  simp only [pyStrLe, Bool.not_eq_true'] at *
  by_contra hne
  rw [Bool.not_eq_false] at hne
  cases hab : pyCharListLt a.data b.data
  · have heq := pyCharListLt_eq_of_not _ _ hab h1
    rw [heq] at hne
    rw [hne] at h2
    exact Bool.noConfusion h2
  · have := pyCharListLt_trans _ _ _ hne hab
    rw [this] at h2
    simp at h2

theorem sortLe_trans {E : Type} (order : SortOrder) :
    ∀ a b c : Observer E, ObserverStore.sortLe order a b →
      ObserverStore.sortLe order b c → ObserverStore.sortLe order a c := by
  cases order <;> intro a b c h1 h2 <;>
    simp only [ObserverStore.sortLe] at *
  · exact pyStrLe_trans _ _ _ h1 h2
  · exact pyStrLe_trans _ _ _ h2 h1

theorem sortLe_total {E : Type} (order : SortOrder) :
    ∀ a b : Observer E,
      (ObserverStore.sortLe order a b || ObserverStore.sortLe order b a) := by
  cases order <;> intro a b <;> simp only [ObserverStore.sortLe]
  · exact pyStrLe_total _ _
  · exact pyStrLe_total _ _

/-- `mergeSort` on a two-element list compares the two elements once. -/
theorem mergeSort_pair {α : Type} (le : α → α → Bool) (a b : α) :
    [a, b].mergeSort le = if le a b then [a, b] else [b, a] := by
  rw [List.mergeSort]
  simp only [List.splitInTwo_fst, List.splitInTwo_snd]
  norm_num [List.mergeSort_singleton, List.merge]

/-! ### Claim theorems -/

/-- C1: for every non-empty `name_pattern` `p`, an observer is kept by the
filtering step of `ObserverStore.get_observers` if and only if `p`,
compared case-insensitively, is a contiguous substring of the observer's
name or of at least one of its aliases; when `name_pattern` is `None`, no
observer is filtered out. -/
theorem filter_keeps_observer_iff_pattern_matches {E : Type}
    (observers : List (Observer E)) (p : String) (o : Observer E) :
    (p ≠ "" →
      (o ∈ ObserverStore.filterByName observers (some p) ↔
        o ∈ observers ∧
          ((pyLower p).data <:+: (pyLower o.name).data ∨
            ∃ al ∈ o.aliases, (pyLower p).data <:+: (pyLower al).data)))
    ∧ ObserverStore.filterByName observers none = observers := by
  constructor
  · intro hp
    simp only [ObserverStore.filterByName]
    rw [if_neg hp, List.mem_filter]
    unfold ObserverStore.has_name_pattern
    simp only [Bool.or_eq_true, decide_eq_true_eq, List.any_eq_true]
  · rfl

/-- Witness for C1 at the pattern `"rub"` and a one-observer list. -/
theorem filter_keeps_observer_iff_pattern_matches_witness :
    rubinObserver ∈ ObserverStore.filterByName [rubinObserver] (some "rub") ↔
      rubinObserver ∈ [rubinObserver] ∧
        ((pyLower "rub").data <:+: (pyLower rubinObserver.name).data ∨
          ∃ al ∈ rubinObserver.aliases,
            (pyLower "rub").data <:+: (pyLower al).data) :=
  (filter_keeps_observer_iff_pattern_matches [rubinObserver] "rub"
    rubinObserver).1 (by decide)

/-- C4: the `total` field of the page returned by
`ObserverStore.get_observers` is the number of observers that pass the
name filter, counted before sorting and slicing, and it does not depend
on the pagination parameters. -/
theorem get_observers_total_is_filtered_count {L E : Type}
    (fromGeodetic : L → E) (sites : Store L) (name_pattern : Option String)
    (pag pag' : Pagination) :
    (ObserverStore.get_observers fromGeodetic sites name_pattern pag).total =
      (ObserverStore.filterByName
        (ObserverStore.allObservers fromGeodetic sites) name_pattern).length
    ∧ (ObserverStore.get_observers fromGeodetic sites name_pattern pag).total =
      (ObserverStore.get_observers fromGeodetic sites name_pattern
        pag').total :=
  ⟨rfl, rfl⟩

/-- C5: `ObserverCollectionResponseModel.from_domain` never reaches the
point of building the pagination URLs: its read of `observers_page.page`
raises `AttributeError` on every input, because the `ObserversPage`
dataclass has no `page` attribute. This contradicts the repository's own
tests, which exercise the collection endpoint and its
`next_url`/`prev_url` fields. -/
theorem from_domain_raises_attribute_error_page {E Deg : Type}
    (lonDeg latDeg elevM : E → Deg) (observers_page : ObserversPage E)
    (request : Request) (name_pattern : Option String) :
    ObserverCollectionResponseModel.from_domain lonDeg latDeg elevM
        observers_page request name_pattern =
      Except.error (PyError.attributeError "ObserversPage" "page") := rfl

/-- C6: in the `TargetObservability` built by
`TargetObservability.compute`, `airmass` is `None` exactly when the
target is not above the horizon, and is the secant of the zenith angle of
the computed altitude-azimuth position when it is. -/
theorem compute_airmass_none_iff_below_horizon
    {E Coord Time ATime AltAzT Ang Fl : Type}
    (lib : AstroLib E Coord Time ATime AltAzT Ang Fl) (observer : Observer E)
    (target : Coord) (time : Time) :
    ((TargetObservability.compute lib observer target time).airmass = none ↔
      (TargetObservability.compute lib observer target
        time).is_above_horizon = false)
    ∧ ((TargetObservability.compute lib observer target
          time).is_above_horizon = true →
        (TargetObservability.compute lib observer target time).airmass =
          some (lib.secz ((TargetObservability.compute lib observer target
            time).altaz))) := by
  unfold TargetObservability.compute
  cases h : lib.targetIsUp observer (lib.astropyTime time) target <;>
    simp [h]

/-- Witness for C6 with an oracle whose target is always up. -/
theorem compute_airmass_none_iff_below_horizon_witness :
    (TargetObservability.compute unitAstroLib rubinObserver ()
      ()).airmass = some () :=
  (compute_airmass_none_iff_below_horizon unitAstroLib rubinObserver ()
    ()).2 rfl

/-- C7: `ObserverService.get_observer_by_id` returns the stored observer
when the id is a key of the site mapping and raises
`ObserverNotFoundError` — which carries HTTP status 404 and error code
`"unknown_observer"` — exactly when it is not; the store state is
unchanged. -/
theorem service_get_observer_by_id_found_or_404 {L E : Type}
    (fromGeodetic : L → E) (sites : Store L) (observer_id : String) :
    (∀ site_info, dictGet sites observer_id = some site_info →
      ObserverService.get_observer_by_id fromGeodetic sites observer_id =
        Except.ok
          { observer_id := observer_id
            location := fromGeodetic site_info.locationData
            name := site_info.name
            aliases := site_info.aliases
            local_timezone := site_info.timezone })
    ∧ (dictGet sites observer_id = none →
      ObserverService.get_observer_by_id fromGeodetic sites observer_id =
        Except.error { message := observer_id })
    ∧ ObserverNotFoundError.status_code = 404
    ∧ ObserverNotFoundError.error = "unknown_observer"
    ∧ (ObserverStore.run fromGeodetic sites
        (StoreOp.getObserverById observer_id)).2 = sites := by
  refine ⟨?_, ?_, rfl, rfl, rfl⟩
  · intro site_info h
    unfold ObserverService.get_observer_by_id ObserverStore.get_observer_by_id
    rw [h]
  · intro h
    unfold ObserverService.get_observer_by_id ObserverStore.get_observer_by_id
    rw [h]

/-- Witness for C7: a present id and an absent id on the two-site
fixture. -/
theorem service_get_observer_by_id_found_or_404_witness :
    ObserverService.get_observer_by_id uGeo demoStore "rubin" =
      Except.ok rubinObserver
    ∧ ObserverService.get_observer_by_id uGeo demoStore "not-a-site" =
      Except.error { message := "not-a-site" } := by
  constructor
  · exact (service_get_observer_by_id_found_or_404 uGeo demoStore
      "rubin").1 rubinSite (by decide)
  · exact (service_get_observer_by_id_found_or_404 uGeo demoStore
      "not-a-site").2.1 (by decide)

/-- The state component of a single store operation is the state it was
given: the store methods contain no assignment to `self._sites`. -/
theorem run_state {L E : Type} (fromGeodetic : L → E) (sites : Store L)
    (op : StoreOp) :
    (ObserverStore.run fromGeodetic sites op).2 = sites := by
  cases op <;> rfl

/-- C8: after the store is constructed from the site JSON with slugified
keys, no sequence of `get_observer_by_id`, `get_observers` and
`total_count` calls changes the in-memory site mapping or the value of
`total_count`. -/
theorem store_operations_leave_sites_unchanged {L E : Type}
    (fromGeodetic : L → E) (slugify : String → String)
    (site_data : List (String × SiteInfo L)) (ops : List StoreOp) :
    ObserverStore.runSeq fromGeodetic (ObserverStore.init slugify site_data)
        ops = ObserverStore.init slugify site_data
    ∧ ObserverStore.total_count
        (ObserverStore.runSeq fromGeodetic
          (ObserverStore.init slugify site_data) ops) =
      ObserverStore.total_count (ObserverStore.init slugify site_data) := by
  have key : ∀ (s : Store L) (ops' : List StoreOp),
      ObserverStore.runSeq fromGeodetic s ops' = s := by
    intro s ops'
    induction ops' generalizing s with
    | nil => rfl
    | cons op rest ih =>
      unfold ObserverStore.runSeq at *
      simp only [List.foldl_cons]
      rw [run_state]
      exact ih s
  exact ⟨key _ ops, by rw [key _ ops]⟩

/-- C9: for every stored observer, `get_target_observability` returns
exactly `TargetObservability.compute` applied to the stored observer, the
given coordinates and the given time. -/
theorem get_target_observability_is_compute_of_stored_observer
    {L E Coord Time ATime AltAzT Ang Fl : Type}
    (lib : AstroLib E Coord Time ATime AltAzT Ang Fl) (fromGeodetic : L → E)
    (sites : Store L) (observer_id : String) (sky_coord : Coord)
    (time : Time) (observer : Observer E)
    (h : ObserverStore.get_observer_by_id fromGeodetic sites observer_id =
      some observer) :
    ObserverService.get_target_observability lib fromGeodetic sites
        observer_id sky_coord time =
      Except.ok (TargetObservability.compute lib observer sky_coord time) := by
  unfold ObserverService.get_target_observability
    ObserverService.get_observer_by_id
  rw [h]
  rfl

/-- Witness for C9 at the `rubin` fixture. -/
theorem get_target_observability_is_compute_of_stored_observer_witness :
    ObserverService.get_target_observability unitAstroLib uGeo demoStore
        "rubin" () () =
      Except.ok (TargetObservability.compute unitAstroLib rubinObserver ()
        ()) :=
  get_target_observability_is_compute_of_stored_observer unitAstroLib uGeo
    demoStore "rubin" () () rubinObserver rfl

/-- C10: `pagination_dependency` requires `page >= 1` but accepts every
integer `limit` unchanged; and with `limit = 0`, `get_observers` returns
an empty observers list while `total` still counts the filtered
observers. -/
theorem pagination_dependency_bounds_and_zero_limit {L E : Type}
    (fromGeodetic : L → E) (sites : Store L) (name_pattern : Option String)
    (page limit : Int) (order : SortOrder) :
    (1 ≤ page →
      pagination_dependency page limit order =
        some { page := page, limit := limit, order := order })
    ∧ (page < 1 → pagination_dependency page limit order = none)
    ∧ (ObserverStore.get_observers fromGeodetic sites name_pattern
        { page := page, limit := 0, order := order }).observers = []
    ∧ (ObserverStore.get_observers fromGeodetic sites name_pattern
        { page := page, limit := 0, order := order }).total =
      (ObserverStore.filterByName
        (ObserverStore.allObservers fromGeodetic sites)
        name_pattern).length := by
  refine ⟨?_, ?_, ?_, rfl⟩
  · intro h
    unfold pagination_dependency
    rw [if_pos h]
  · intro h
    unfold pagination_dependency
    rw [if_neg (by omega)]
  · unfold ObserverStore.get_observers
    simp only [mul_zero, add_zero, List.length_mergeSort]
    rw [if_neg (not_lt.mpr (Int.natCast_nonneg _))]
    split
    · simp [pySlice, pyBound]
    · rfl

/-- Witness for C10 at `page = 1`, `limit = -5` and `limit = 0`, and at
`page = 0`. -/
theorem pagination_dependency_bounds_and_zero_limit_witness :
    pagination_dependency 1 (-5) SortOrder.asc =
      some { page := 1, limit := -5, order := SortOrder.asc }
    ∧ pagination_dependency 0 10 SortOrder.asc = none
    ∧ (ObserverStore.get_observers uGeo demoStore none
        { page := 1, limit := 0, order := SortOrder.asc }).observers = [] := by
  refine ⟨?_, ?_, ?_⟩
  · exact (pagination_dependency_bounds_and_zero_limit uGeo demoStore none
      1 (-5) SortOrder.asc).1 (by decide)
  · exact (pagination_dependency_bounds_and_zero_limit uGeo demoStore none
      0 10 SortOrder.asc).2.1 (by decide)
  · exact (pagination_dependency_bounds_and_zero_limit uGeo demoStore none
      1 0 SortOrder.asc).2.2.1

/-- The observers field of `get_observers`, written through
`filteredSorted`: the page is a Python slice of the filtered-and-sorted
list when the start index is below its length, and empty otherwise. -/
theorem get_observers_observers_eq {L E : Type} (fromGeodetic : L → E)
    (sites : Store L) (name_pattern : Option String) (pag : Pagination) :
    (ObserverStore.get_observers fromGeodetic sites name_pattern
        pag).observers =
      (if (pag.page - 1) * pag.limit <
          ((ObserverStore.filteredSorted fromGeodetic sites name_pattern
            pag.order).length : Int) then
        pySlice
          (ObserverStore.filteredSorted fromGeodetic sites name_pattern
            pag.order)
          ((pag.page - 1) * pag.limit)
          (if (pag.page - 1) * pag.limit + pag.limit >
              ((ObserverStore.filteredSorted fromGeodetic sites name_pattern
                pag.order).length : Int) then
            ((ObserverStore.filteredSorted fromGeodetic sites name_pattern
              pag.order).length : Int)
          else (pag.page - 1) * pag.limit + pag.limit)
      else []) := rfl

/-- A Python slice of a list is a sublist of it. -/
theorem pySlice_sublist {α : Type} (l : List α) (s e : Int) :
    List.Sublist (pySlice l s e) l :=
  List.Sublist.trans (List.take_sublist _ _) (List.drop_sublist _ _)

/-- The page returned by `get_observers` is pairwise ordered under the
boolean comparison the sort used. -/
theorem get_observers_pairwise_sortLe {L E : Type} (fromGeodetic : L → E)
    (sites : Store L) (name_pattern : Option String) (pag : Pagination) :
    (ObserverStore.get_observers fromGeodetic sites name_pattern
        pag).observers.Pairwise
      (fun a b => ObserverStore.sortLe pag.order a b = true) := by
  have hsorted : (ObserverStore.filteredSorted fromGeodetic sites
      name_pattern pag.order).Pairwise
        (fun a b => ObserverStore.sortLe pag.order a b = true) :=
    List.sorted_mergeSort (sortLe_trans pag.order) (sortLe_total pag.order) _
  rw [get_observers_observers_eq]
  split
  · exact List.Pairwise.sublist (pySlice_sublist _ _ _) hsorted
  · exact List.Pairwise.nil

/-- C2: the observers in a page returned by `ObserverStore.get_observers`
are sorted by lowercased name: nondecreasing (no later key is strictly
below an earlier one, in the code-point lexicographic order) when the
requested order is `asc`, nonincreasing when it is `desc`. -/
theorem get_observers_page_sorted_by_lowercased_name {L E : Type}
    (fromGeodetic : L → E) (sites : Store L) (name_pattern : Option String)
    (pag : Pagination) :
    (pag.order = SortOrder.asc →
      (ObserverStore.get_observers fromGeodetic sites name_pattern
          pag).observers.Pairwise
        (fun a b =>
          ¬ List.Lex (· < ·) (pyLower b.name).data (pyLower a.name).data))
    ∧ (pag.order = SortOrder.desc →
      (ObserverStore.get_observers fromGeodetic sites name_pattern
          pag).observers.Pairwise
        (fun a b =>
          ¬ List.Lex (· < ·) (pyLower a.name).data (pyLower b.name).data)) := by
  have hp := get_observers_pairwise_sortLe fromGeodetic sites name_pattern pag
  constructor
  · intro ho
    rw [ho] at hp
    refine hp.imp ?_
    intro a b hab
    simp only [ObserverStore.sortLe, pyStrLe, Bool.not_eq_true'] at hab
    rw [← pyCharListLt_iff_lex]
    simp [hab]
  · intro ho
    rw [ho] at hp
    refine hp.imp ?_
    intro a b hab
    simp only [ObserverStore.sortLe, pyStrLe, Bool.not_eq_true'] at hab
    rw [← pyCharListLt_iff_lex]
    simp [hab]

/-- Witness for C2 on the two-site fixture with ascending order. -/
theorem get_observers_page_sorted_by_lowercased_name_witness :
    (ObserverStore.get_observers uGeo demoStore none
        { page := 1, limit := 10, order := SortOrder.asc }).observers.Pairwise
      (fun a b =>
        ¬ List.Lex (· < ·) (pyLower b.name).data (pyLower a.name).data) :=
  (get_observers_page_sorted_by_lowercased_name uGeo demoStore none
    { page := 1, limit := 10, order := SortOrder.asc }).1 rfl

/-- C3 (amended): for every `page >= 1` and every `limit >= 0`, the
observers list returned by `ObserverStore.get_observers` is exactly the
contiguous slice of the filtered-and-sorted list starting at index
`(page - 1) * limit` with at most `limit` elements (clipped at the end of
the list), and it is empty whenever `(page - 1) * limit` is at or past
the end of that list. (For negative `limit` the code inherits Python's
negative-index slicing instead; see the counterexample.) -/
theorem get_observers_page_is_drop_take_slice {L E : Type}
    (fromGeodetic : L → E) (sites : Store L) (name_pattern : Option String)
    (pag : Pagination) (hpage : 1 ≤ pag.page) (hlimit : 0 ≤ pag.limit) :
    (ObserverStore.get_observers fromGeodetic sites name_pattern
        pag).observers =
      ((ObserverStore.filteredSorted fromGeodetic sites name_pattern
          pag.order).drop ((pag.page - 1) * pag.limit).toNat).take
        pag.limit.toNat
    ∧ (((ObserverStore.filteredSorted fromGeodetic sites name_pattern
          pag.order).length : Int) ≤ (pag.page - 1) * pag.limit →
        (ObserverStore.get_observers fromGeodetic sites name_pattern
          pag).observers = []) := by
  have hs : 0 ≤ (pag.page - 1) * pag.limit := mul_nonneg (by omega) hlimit
  have hmain : (ObserverStore.get_observers fromGeodetic sites name_pattern
      pag).observers =
      ((ObserverStore.filteredSorted fromGeodetic sites name_pattern
          pag.order).drop ((pag.page - 1) * pag.limit).toNat).take
        pag.limit.toNat := by
    rw [get_observers_observers_eq]
    set l := ObserverStore.filteredSorted fromGeodetic sites name_pattern
      pag.order with hl
    set s := (pag.page - 1) * pag.limit with hsdef
    by_cases hlt : s < (l.length : Int)
    · rw [if_pos hlt]
      unfold pySlice pyBound
      rw [if_neg (not_lt.mpr hs)]
      have hstop_nonneg :
          0 ≤ (if s + pag.limit > (l.length : Int) then (l.length : Int)
            else s + pag.limit) := by
        split <;> omega
      rw [if_neg (not_lt.mpr hstop_nonneg)]
      have hsn : min s.toNat l.length = s.toNat :=
        Nat.min_eq_left (by omega)
      rw [hsn]
      by_cases hover : s + pag.limit > (l.length : Int)
      · rw [if_pos hover]
        rw [Int.toNat_ofNat, Nat.min_self]
        rw [List.take_of_length_le (by simp),
          List.take_of_length_le (by simp; omega)]
      · rw [if_neg hover]
        have hmin : min (s + pag.limit).toNat l.length =
            (s + pag.limit).toNat :=
          Nat.min_eq_left (by omega)
        rw [hmin]
        have hsub : (s + pag.limit).toNat - s.toNat = pag.limit.toNat := by
          omega
        rw [hsub]
    · rw [if_neg hlt]
      rw [List.drop_eq_nil_of_le (by omega)]
      simp
  refine ⟨hmain, fun hlen => ?_⟩
  rw [hmain, List.drop_eq_nil_of_le (by omega)]
  simp

/-- Witness for C3 on the two-site fixture with `page = 1`,
`limit = 10`. -/
theorem get_observers_page_is_drop_take_slice_witness :
    (ObserverStore.get_observers uGeo demoStore none
        { page := 1, limit := 10, order := SortOrder.asc }).observers =
      ((ObserverStore.filteredSorted uGeo demoStore none
          ({ page := 1, limit := 10, order := SortOrder.asc } :
            Pagination).order).drop
        ((({ page := 1, limit := 10, order := SortOrder.asc } :
            Pagination).page - 1) *
          ({ page := 1, limit := 10, order := SortOrder.asc } :
            Pagination).limit).toNat).take
        ({ page := 1, limit := 10, order := SortOrder.asc } :
          Pagination).limit.toNat :=
  (get_observers_page_is_drop_take_slice uGeo demoStore none
    { page := 1, limit := 10, order := SortOrder.asc } (by decide)
    (by decide)).1

/-- Counterexample to C3 as stated for every `limit`: with two stored
sites, `page = 1` and `limit = -1`, the slice indices are `start = 0` and
`end = -1`, which Python resolves to the first of the two observers, while
a slice "starting at index 0 containing at most -1 elements" is empty.
The returned page is therefore not the drop/take slice the claim
describes. -/
theorem get_observers_slice_claim_fails_for_negative_limit :
    (ObserverStore.get_observers uGeo demoStore none
        { page := 1, limit := -1, order := SortOrder.asc }).observers ≠
      ((ObserverStore.filteredSorted uGeo demoStore none SortOrder.asc).drop
          ((((1 : Int) - 1) * (-1)).toNat)).take ((-1 : Int)).toNat := by
  have hids : ObserverStore.observer_ids demoStore =
      List.mergeSort ["rubin", "rubin-auxtel"] pyStrLe := rfl
  have hids2 : ObserverStore.observer_ids demoStore =
      ["rubin", "rubin-auxtel"] := by
    rw [hids, mergeSort_pair]
    decide
  have hall : ObserverStore.allObservers uGeo demoStore =
      [rubinObserver, auxtelObserver] := by
    unfold ObserverStore.allObservers
    rw [hids2]
    decide
  have hfs : ObserverStore.filteredSorted uGeo demoStore none SortOrder.asc =
      [auxtelObserver, rubinObserver] := by
    unfold ObserverStore.filteredSorted
    rw [hall]
    rw [show ObserverStore.filterByName [rubinObserver, auxtelObserver] none =
      [rubinObserver, auxtelObserver] from rfl]
    rw [mergeSort_pair]
    decide
  have hlhs : (ObserverStore.get_observers uGeo demoStore none
      { page := 1, limit := -1, order := SortOrder.asc }).observers =
      [auxtelObserver] := by
    rw [get_observers_observers_eq]
    have hfs' : ObserverStore.filteredSorted uGeo demoStore none
        ({ page := 1, limit := -1, order := SortOrder.asc } :
          Pagination).order = [auxtelObserver, rubinObserver] := hfs
    rw [hfs']
    decide
  rw [hlhs, hfs]
  decide

end FastapiBootcamp
